import Mathlib

/-!
# Verification of the SCDS multi-agent climate pipeline

Shallow embedding of the backend of the repository
(`backend/agents/*.py`, `backend/models/schemas.py`, `backend/main.py`)
over exact rational arithmetic, together with proofs and refutations of
the specification's claims about it.

Conventions:
* Python floats are embedded as `ℚ`; `round(x, n)` is `roundTo n x` below,
  built from Mathlib's `round` (round half away from zero vs Python's
  round-half-to-even differ only at exact ties; no value rounded in this
  development sits at a tie, and the monotonicity and bound facts used
  hold for either convention).
* Python exceptions are embedded as `Except`: an attribute access on a
  pydantic model is a lookup among the model's declared fields, and an
  access to an undeclared attribute is an `AttributeError` value, as
  pydantic raises at run time.
* Free-text message composition (f-strings and LLM prompts) is out of
  scope per the spec (§1: message generation is an external
  text-generation capability with no further obligation); embedded agent
  messages therefore carry the claims and recommendations, which are the
  only message fields any downstream computation reads.
-/

set_option autoImplicit false

namespace SCDS

/-- `round(q, n)` of Python: scale by `10 ^ n`, round to an integer, scale back. -/
def roundTo (n : ℕ) (q : ℚ) : ℚ :=
  ((round (q * 10 ^ n) : ℤ) : ℚ) / 10 ^ n

/-- `isOk` discriminator for embedded Python computations: `true` iff the
computation returned normally rather than raising. -/
def isOkE {ε α : Type} : Except ε α → Bool
  | .ok _ => true
  | .error _ => false

/-- A Python value as it appears in keyword arguments and attribute reads:
either a number or a string. -/
inductive PyVal where
  | num (q : ℚ)
  | str (s : String)
deriving DecidableEq, Repr

/-! ## Data model (`models/schemas.py`) -/

/-- `Location` with its pydantic `Field` bounds checked separately by
`validLocation`. -/
structure Location where
  lat : ℚ
  lng : ℚ
  name : String
deriving DecidableEq, Repr

/-- `Priorities` with its pydantic `Field` bounds checked separately by
`validPriorities`. -/
structure Priorities where
  economic : ℚ
  environmental : ℚ
  social : ℚ
deriving DecidableEq, Repr

/-- `AnalyzeRequest` (`radius` bounds checked by `validRadius`). -/
structure AnalyzeRequest where
  location : Location
  radius : ℚ
  priorities : Priorities
  userPrompt : Option String
deriving DecidableEq, Repr

/-- The `Field(ge=-90, le=90)` / `Field(ge=-180, le=180)` constraints of `Location`. -/
def validLocation (loc : Location) : Bool :=
  decide (-90 ≤ loc.lat ∧ loc.lat ≤ 90) && decide (-180 ≤ loc.lng ∧ loc.lng ≤ 180)

/-- The `Field(ge=0, le=100)` constraints of `Priorities`. -/
def validPriorities (p : Priorities) : Bool :=
  decide (0 ≤ p.economic ∧ p.economic ≤ 100) &&
  decide (0 ≤ p.environmental ∧ p.environmental ≤ 100) &&
  decide (0 ≤ p.social ∧ p.social ≤ 100)

/-- The `Field(ge=10, le=200)` constraint on `AnalyzeRequest.radius`. -/
def validRadius (r : ℚ) : Bool :=
  decide (10 ≤ r ∧ r ≤ 200)

/-- Pydantic validation of an incoming `AnalyzeRequest`, as FastAPI performs
it on the body of `POST /analyze` before the handler in `main.py` runs. -/
def parseAnalyzeRequest (req : AnalyzeRequest) : Except String AnalyzeRequest :=
  if validLocation req.location && validPriorities req.priorities && validRadius req.radius then
    .ok req
  else
    .error "ValidationError"

/-- The `/analyze` endpoint of `main.py`: the request body is validated
against `AnalyzeRequest` first, and only a validated request reaches the
agent pipeline (`stream_agent_outputs` / `agent_graph.ainvoke`), here an
arbitrary function `run_pipeline`. -/
def analyze_endpoint {α : Type} (run_pipeline : AnalyzeRequest → α)
    (req : AnalyzeRequest) : Except String α :=
  (parseAnalyzeRequest req).map run_pipeline

/-- The `Literal["low", "medium", "high"]` type of
`ClimateData.extreme_weather_risk` in `models/schemas.py`. -/
inductive RiskLevel where
  | low
  | medium
  | high
deriving DecidableEq, Repr

def RiskLevel.toStr : RiskLevel → String
  | .low => "low"
  | .medium => "medium"
  | .high => "high"

/-- Validation of a string against `Literal["low", "medium", "high"]`. -/
def RiskLevel.ofStr (s : String) : Option RiskLevel :=
  if s = "low" then some .low
  else if s = "medium" then some .medium
  else if s = "high" then some .high
  else none

/-- `ClimateData` as declared in `models/schemas.py`: fields
`temperature_avg`, `precipitation_sum`, `precipitation_anomaly`,
`extreme_weather_risk`. -/
structure ClimateData where
  temperature_avg : ℚ
  precipitation_sum : ℚ
  precipitation_anomaly : ℚ
  extreme_weather_risk : RiskLevel
deriving DecidableEq, Repr

/-- The declared field set of the pydantic model `ClimateData`: attribute
access succeeds exactly on these names (pydantic raises `AttributeError`
on any other attribute). -/
def ClimateData.getAttr (cd : ClimateData) (attr : String) : Option PyVal :=
  if attr = "temperature_avg" then some (.num cd.temperature_avg)
  else if attr = "precipitation_sum" then some (.num cd.precipitation_sum)
  else if attr = "precipitation_anomaly" then some (.num cd.precipitation_anomaly)
  else if attr = "extreme_weather_risk" then some (.str cd.extreme_weather_risk.toStr)
  else none

/-- `AgentClaim` from `models/schemas.py`. -/
structure AgentClaim where
  metric : String
  value : ℚ
  unit : String
  confidence : ℚ
deriving DecidableEq, Repr

/-- `AgentMessage` restricted to the fields read by downstream agents
(`claims`, `recommendations`); the free-text `message`, `agent` and
`timestamp` fields are outside the embedded scope (see the header). -/
structure AgentMessage where
  claims : List AgentClaim
  recommendations : List String
deriving DecidableEq, Repr

/-- `AgentState` restricted to the fields the planner stage reads
(`location`, `climate_data` and the three upstream outputs; `radius`,
`priorities` and `userPrompt` are carried but unread by the planner). -/
structure AgentState where
  location : Location
  radius : ℚ
  priorities : Priorities
  climate_data : Option ClimateData
  meteorologist_output : Option AgentMessage
  agronomist_output : Option AgentMessage
  economist_output : Option AgentMessage
deriving DecidableEq, Repr

/-! ## Meteorologist (`agents/meteorologist.py`) -/

/-- Errors of `MeteorologistAgent._fetch_climate_data`: a propagated HTTP
failure from `response.raise_for_status()`, the `ZeroDivisionError` from
`sum(temps) / len(temps)` on an empty series, and a pydantic
`ValidationError` from the `ClimateData(...)` constructor call. -/
inductive FetchError where
  | httpError
  | zeroDivision
  | validationError
deriving DecidableEq, Repr

/-- `MeteorologistAgent._assess_weather_risk`. -/
def assess_weather_risk (temp precip lat lon : ℚ) : String :=
  let risk_score : ℤ :=
    (if temp > 30 then 2 else if temp > 27 then 1 else 0) +
    (if precip < 400 then 2 else if precip > 1800 then 2
      else if precip > 1200 then 1 else 0) +
    (if (24 < lat ∧ lat < 32 ∧ -98 < lon ∧ lon < -80) ∨
        (15 < lat ∧ lat < 30 ∧ -85 < lon ∧ lon < -60) then 2 else 0) +
    (if 30 < lat ∧ lat < 45 ∧ -105 < lon ∧ lon < -85 then 1 else 0)
  if risk_score ≥ 4 then "extreme"
  else if risk_score ≥ 3 then "high"
  else if risk_score ≥ 2 then "medium"
  else "low"

/-- Keyword-argument lookup for an embedded pydantic constructor call. -/
def lookupArg (args : List (String × PyVal)) (name : String) : Option PyVal :=
  (args.find? (fun p => p.1 == name)).map (fun p => p.2)

/-- Pydantic validation of the constructor call `ClimateData(**args)`:
every declared field must be supplied with a value of its annotated type
(`extreme_weather_risk` additionally against its `Literal` set), else a
`ValidationError` is raised. -/
def validateClimateData (args : List (String × PyVal)) : Except FetchError ClimateData :=
  match lookupArg args "temperature_avg", lookupArg args "precipitation_sum",
      lookupArg args "precipitation_anomaly", lookupArg args "extreme_weather_risk" with
  | some (.num t), some (.num p), some (.num a), some (.str r) =>
    match RiskLevel.ofStr r with
    | some lvl => .ok ⟨t, p, a, lvl⟩
    | none => .error .validationError
  | _, _, _, _ => .error .validationError

/-- `MeteorologistAgent._fetch_climate_data`. The Open-Meteo call is the
input `fetched`: `none` when the request fails (`raise_for_status`
propagates), `some (temps, precips)` on success. On success the function
averages the series, annualizes precipitation, assesses the risk level and
calls `ClimateData(temperature=..., precipitation=..., extreme_weather_risk=...)`
with exactly those keyword arguments. -/
def fetch_climate_data (lat lon : ℚ) (fetched : Option (List ℚ × List ℚ)) :
    Except FetchError ClimateData :=
  match fetched with
  | none => .error .httpError
  | some (temps, precips) =>
    if temps.length = 0 then .error .zeroDivision
    else
      let avg_temp := temps.sum / (temps.length : ℚ)
      let total_precip := precips.sum
      let annual_precip := total_precip * (365 / 90)
      let risk := assess_weather_risk avg_temp annual_precip lat lon
      validateClimateData
        [("temperature", .num (roundTo 1 avg_temp)),
         ("precipitation", .num (roundTo 1 annual_precip)),
         ("extreme_weather_risk", .str risk)]

/-- The fallback `ClimateSignal` of spec §4.1 (temperature 28.0,
precipitation 180.0, anomaly -20.0, risk "medium"), stated from the spec's
words for comparison with `fetch_climate_data`. -/
def specFallbackSignal : ClimateData :=
  ⟨28.0, 180.0, -20.0, .medium⟩

/-! ## Agronomist (`agents/agronomist.py`) -/

/-- `AgronomistAgent._calculate_yield_impact`. -/
def calculate_yield_impact (precip_anomaly temp_avg : ℚ) : ℚ :=
  let yield_change : ℚ :=
    if precip_anomaly ≤ -45 then -25.0
    else if precip_anomaly ≤ -30 then -22.5
    else if precip_anomaly ≤ -15 then -12.5
    else if precip_anomaly ≤ 10 then -2.5
    else min 8.0 (precip_anomaly * 0.2)
  if temp_avg > 30 then yield_change - 5.0
  else if 15 ≤ temp_avg ∧ temp_avg ≤ 25 then yield_change + 5.0
  else yield_change

/-- `AgronomistAgent._calculate_water_stress`. -/
def calculate_water_stress (precip_anomaly : ℚ) : ℚ :=
  let stress : ℚ :=
    if precip_anomaly < 0 then min 1.0 (0.2 + (-precip_anomaly / 100))
    else min 0.3 (0.2 + precip_anomaly / 200)
  roundTo 2 stress

/-- The risk-penalty dictionary of `AgronomistAgent._calculate_soil_health`
(`{"low": 0.0, "medium": 0.07, "high": 0.15}[risk]`; within `analyze` the
key is the schema-typed `climate.extreme_weather_risk`, so lookup succeeds). -/
def soil_risk_penalty : RiskLevel → ℚ
  | .low => 0.0
  | .medium => 0.07
  | .high => 0.15

/-- `AgronomistAgent._calculate_soil_health`. -/
def calculate_soil_health (precip_anomaly water_stress : ℚ) (risk : RiskLevel) : ℚ :=
  let score : ℚ := 0.7
  let score :=
    if precip_anomaly < 0 then score - min 0.4 (|precip_anomaly| / 150)
    else score + min 0.15 (precip_anomaly / 250)
  let score := score - water_stress * 0.35
  let score := score - soil_risk_penalty risk
  roundTo 2 (max 0.0 (min 1.0 score))

/-! ## Economist (`agents/economist.py`) -/

/-- `EconomistAgent._estimate_adaptation_cost`: a household-scale cost built
from the risk level, the average temperature and the time horizon (the
spatial radius is not an input). -/
def estimate_adaptation_cost (risk : String) (temp : ℚ) (years : ℕ) : ℚ :=
  let base_cost : ℚ :=
    if risk = "low" then 5000
    else if risk = "medium" then 15000
    else if risk = "high" then 35000
    else if risk = "extreme" then 60000
    else 15000
  let base_cost :=
    if temp > 30 then base_cost + (temp - 30) * 2000
    else if temp < 10 then base_cost + (10 - temp) * 1500
    else base_cost
  let base_cost :=
    if 10 < years then base_cost * (1 + ((years : ℚ) - 10) * 0.05)
    else base_cost
  ((round base_cost : ℤ) : ℚ)

/-- `math.pi` at double precision, as Python evaluates it. -/
def piQ : ℚ := 3.141592653589793

/-- The spec's adaptation-cost formula (§4.3, Scenario B), stated from the
spec's words for comparison with `estimate_adaptation_cost`:
`area_hectares = π·radius²·100`, cost per hectare
`{low: 120, medium: 320, high: 650}` (default 320), drought buffer
`{low: 1.0, medium: 1.15, high: 1.35}`, contingency 1.1, rounded to the
nearest hundred. -/
def spec_adaptation_cost (radius : ℚ) (risk : String) : ℚ :=
  let area_hectares := piQ * radius ^ 2 * 100
  let cost_per_hectare : ℚ :=
    if risk = "low" then 120 else if risk = "medium" then 320
    else if risk = "high" then 650 else 320
  let drought_buffer : ℚ :=
    if risk = "low" then 1.0 else if risk = "medium" then 1.15
    else if risk = "high" then 1.35 else 1.0
  let total := area_hectares * cost_per_hectare * drought_buffer * 1.1
  ((round (total / 100) : ℤ) : ℚ) * 100

/-! ## Planner (`agents/planner.py`) -/

/-- The errors `PlannerAgent.analyze` can raise: the `ValueError` of its
dependency guard, and the `AttributeError` pydantic raises when the code
reads an attribute the model does not declare (`obj` names the receiver
class, `attr` the attribute). -/
inductive PlanError where
  | missingDependency (msg : String)
  | attributeError (obj attr : String)
deriving DecidableEq, Repr

/-- `true` exactly on the dependency-guard error of `PlannerAgent.analyze`. -/
def isMissingDependency {α : Type} : Except PlanError α → Bool
  | .error (.missingDependency _) => true
  | _ => false

/-- Attribute read `climate.<attr>` used as a number: `state.climate_data`
may be `None` (attribute access on `NoneType` raises), and a present
`ClimateData` only has its declared fields. -/
def climate_num_attr (climate : Option ClimateData) (attr : String) :
    Except PlanError ℚ :=
  match climate with
  | none => .error (.attributeError "NoneType" attr)
  | some cd =>
    match cd.getAttr attr with
    | some (.num q) => .ok q
    | some (.str _) => .error (.attributeError "ClimateData" attr)
    | none => .error (.attributeError "ClimateData" attr)

/-- Attribute read `climate.<attr>` used as a string. -/
def climate_str_attr (climate : Option ClimateData) (attr : String) :
    Except PlanError String :=
  match climate with
  | none => .error (.attributeError "NoneType" attr)
  | some cd =>
    match cd.getAttr attr with
    | some (.str s) => .ok s
    | some (.num _) => .error (.attributeError "ClimateData" attr)
    | none => .error (.attributeError "ClimateData" attr)

/-- The insight dictionary of `PlannerAgent._extract_meteorologist_insights`
(`extreme_weather_likelihood` is written but never read, so it is not
carried). -/
structure MetInsights where
  precipitation_trend : ℚ
  temperature_anomaly : ℚ
deriving DecidableEq, Repr

/-- `PlannerAgent._extract_meteorologist_insights`: a loop over the claims,
each matching claim overwriting the entry (last match wins), starting from
defaults 0 and 0. -/
def extract_meteorologist_insights (met_output : AgentMessage) : MetInsights :=
  met_output.claims.foldl
    (fun acc claim =>
      if claim.metric == "precipitation_anomaly" then
        ⟨claim.value, acc.temperature_anomaly⟩
      else if claim.metric == "temperature_anomaly" then
        ⟨acc.precipitation_trend, claim.value⟩
      else acc)
    ⟨0, 0⟩

/-- The insight dictionary of `PlannerAgent._extract_economist_insights`. -/
structure EconInsights where
  income_change : ℚ
  adaptation_cost : ℚ
  economic_vulnerability : ℚ
deriving DecidableEq, Repr

/-- `PlannerAgent._extract_economist_insights`: defaults 0, 0 and 50; a claim
named `economic_impact` sets the vulnerability to `abs(claim.value)`. -/
def extract_economist_insights (econ_output : AgentMessage) : EconInsights :=
  econ_output.claims.foldl
    (fun acc claim =>
      if claim.metric == "income_change" then
        ⟨claim.value, acc.adaptation_cost, acc.economic_vulnerability⟩
      else if claim.metric == "adaptation_cost" then
        ⟨acc.income_change, claim.value, acc.economic_vulnerability⟩
      else if claim.metric == "economic_impact" then
        ⟨acc.income_change, acc.adaptation_cost, |claim.value|⟩
      else acc)
    ⟨0, 0, 50⟩

/-- `PlannerAgent._is_likely_coastal`. -/
def is_likely_coastal (lat lng : ℚ) : Bool :=
  if 24 < lat ∧ lat < 31 ∧ -88 < lng ∧ lng < -80 then true
  else if 29 < lat ∧ lat < 31 ∧ -98 < lng ∧ lng < -88 then true
  else if 32 < lat ∧ lat < 45 ∧ -79 < lng ∧ lng < -70 then true
  else if 32 < lat ∧ lat < 49 ∧ -125 < lng ∧ lng < -117 then true
  else false

/-- Substring test `pattern in s` of Python. -/
def strContains (s pattern : String) : Bool :=
  (s.splitOn pattern).length > 1

/-- `PlannerAgent._identify_hazards`. Hazard strings accumulate in the
source's append order; the attribute reads `climate.temperature` and
`climate.precipitation` happen at the positions they occupy in the source
(`climate.extreme_weather_risk` is a declared field and succeeds). -/
def identify_hazards (climate : Option ClimateData) (lat lng : ℚ) (years : ℕ)
    (met_data : MetInsights) : Except PlanError (List String) := do
  let precip_trend := met_data.precipitation_trend
  let temp_anomaly := met_data.temperature_anomaly
  let temperature ← climate_num_attr climate "temperature"
  let effective_temp := temperature + temp_anomaly * (years : ℚ) / 10
  let hazards : List String :=
    if effective_temp > 28 then
      ["Extreme heat waves"] ++ (if 10 < years then ["Prolonged heat stress"] else [])
    else []
  let hazards := hazards ++
    (if effective_temp > 32 ∧ 15 < years then ["Dangerous heat conditions"] else [])
  let precipitation ← climate_num_attr climate "precipitation"
  let effective_precip := precipitation + precip_trend * (years : ℚ) / 5
  let hazards := hazards ++
    (if effective_precip < 400 then ["Severe drought", "Water scarcity"]
     else if effective_precip > 1500 then ["Flooding", "Storm damage"]
     else [])
  let risk ← climate_str_attr climate "extreme_weather_risk"
  let hazards := hazards ++
    (if risk == "high" || risk == "extreme" then
      ["Hurricanes/tropical storms", "Tornado risk", "Severe thunderstorms"]
     else [])
  let hazards := hazards ++
    (if 15 < years then
      (if effective_temp > 30 then ["Unlivable heat conditions"] else []) ++
      (if risk != "low" then ["Increased storm intensity"] else [])
     else [])
  let hazards := hazards ++
    (if 30 < years then
      (if effective_temp > 33 then ["Ecosystem collapse"] else []) ++
      ["Infrastructure breakdown", "Mass displacement risk"]
     else [])
  let hazards := hazards ++
    (if is_likely_coastal lat lng ∧ 10 < years then
      ["Sea level rise", "Coastal flooding"]
     else [])
  pure (hazards.take 8)

/-- The dictionary returned by `PlannerAgent._calculate_risk_scores`. -/
structure RiskScores where
  environmental : ℚ
  economic : ℚ
  overall : ℚ
deriving DecidableEq, Repr

/-- `weather_risk_map.get(risk, 15)` of `_calculate_risk_scores`. -/
def weather_risk_points (risk : String) : ℚ :=
  if risk = "low" then 0
  else if risk = "medium" then 15
  else if risk = "high" then 30
  else if risk = "extreme" then 45
  else 15

/-- The time-based escalation multiplier of `_calculate_risk_scores`. -/
def time_multiplier (years : ℕ) : ℚ :=
  if years ≤ 10 then 1 + (years : ℚ) * 0.03
  else if years ≤ 30 then 1.3 + ((years : ℚ) - 10) * 0.05
  else 2.3 + ((years : ℚ) - 30) * 0.08

/-- The environmental-risk accumulator of `_calculate_risk_scores`, before
rounding: temperature deviation (capped at 35), weather-risk points,
precipitation extremes, hazard-count penalty, time escalation, capped at 100. -/
def env_risk_value (temperature precipitation : ℚ) (risk : String)
    (hazard_count : ℕ) (met_data : MetInsights) (years : ℕ) : ℚ :=
  let effective_temp := temperature + met_data.temperature_anomaly * (years : ℚ) / 10
  let temp_deviation := |effective_temp - 25|
  let env_risk := min (temp_deviation * 3) 35
  let env_risk := env_risk + weather_risk_points risk
  let effective_precip := precipitation + met_data.precipitation_trend * (years : ℚ) / 5
  let env_risk := env_risk +
    (if effective_precip < 400 then 20
     else if effective_precip > 1800 then 15
     else 0)
  let env_risk := env_risk + (hazard_count : ℚ) * 2
  min (env_risk * time_multiplier years) 100

/-- The `severe_hazards` list of `_calculate_risk_scores`. -/
def severe_hazards : List String :=
  ["Hurricanes/tropical storms", "Flooding", "Unlivable heat conditions",
   "Sea level rise", "Infrastructure breakdown"]

/-- The economic-risk accumulator of `_calculate_risk_scores`, before
rounding: 0.7 correlation with the environmental risk, severe-hazard and
coastal penalties, long-horizon uncertainty, capped at 100. -/
def econ_risk_value (env_risk : ℚ) (hazards : List String) (lat lng : ℚ)
    (years : ℕ) : ℚ :=
  let econ_risk := env_risk * 0.7
  let severe_count := (hazards.filter (fun h => severe_hazards.contains h)).length
  let econ_risk := econ_risk + (severe_count : ℚ) * 8
  let econ_risk := econ_risk + (if is_likely_coastal lat lng then 15 else 0)
  let econ_risk := econ_risk + (if 20 < years then ((years : ℚ) - 20) * 0.5 else 0)
  min econ_risk 100

/-- The arithmetic of `PlannerAgent._calculate_risk_scores` as a function of
the attribute values it reads: both accumulators, the weighted overall
score `env*0.6 + econ*0.4` computed from the unrounded accumulators, each
entry rounded to one decimal. -/
def calculate_risk_scores (temperature precipitation : ℚ) (risk : String)
    (hazards : List String) (met_data : MetInsights) (years : ℕ)
    (lat lng : ℚ) : RiskScores :=
  let env_risk := env_risk_value temperature precipitation risk hazards.length met_data years
  let econ_risk := econ_risk_value env_risk hazards lat lng years
  ⟨roundTo 1 env_risk, roundTo 1 econ_risk, roundTo 1 (env_risk * 0.6 + econ_risk * 0.4)⟩

/-- `PlannerAgent._calculate_risk_scores` as called from `analyze`: the
attribute reads `climate.temperature`, `climate.extreme_weather_risk` and
`climate.precipitation` in source order, then the arithmetic
(`calculate_risk_scores`). -/
def calculate_risk_scores_of_state (climate : Option ClimateData)
    (hazards : List String) (met_data : MetInsights) (years : ℕ)
    (lat lng : ℚ) : Except PlanError RiskScores := do
  let temperature ← climate_num_attr climate "temperature"
  let risk ← climate_str_attr climate "extreme_weather_risk"
  let precipitation ← climate_num_attr climate "precipitation"
  pure (calculate_risk_scores temperature precipitation risk hazards met_data years lat lng)

/-- The per-hazard additions of `PlannerAgent._estimate_economic_losses`
(substring matching on the lowercased hazard string, in the source's
elif order). -/
def hazard_loss (hazard : String) : ℚ :=
  let h := hazard.toLower
  if strContains h "hurricane" || strContains h "storm" then 2000
  else if strContains h "flood" then 1500
  else if strContains h "heat" && (strContains h "extreme" || strContains h "dangerous") then 1200
  else if strContains h "drought" then 800
  else if strContains h "sea level" then 2500
  else if strContains h "infrastructure" then 1800
  else 300

/-- The dictionary returned by `PlannerAgent._estimate_economic_losses`. -/
structure EconomicImpact where
  annual_loss_per_capita : ℚ
  total_estimated_loss_10yr : ℚ
  economist_adaptation_cost : ℚ
  confidence : ℚ
deriving DecidableEq, Repr

/-- `PlannerAgent._estimate_economic_losses`: base loss from the economist's
adaptation cost, income-change and hazard additions, time multiplier, the
`state.climate_data.temperature` read at its source position, and the
vulnerability factor. -/
def estimate_economic_losses (climate : Option ClimateData) (years : ℕ)
    (hazards : List String) (econ_data : EconInsights) :
    Except PlanError EconomicImpact := do
  let base_loss := max (econ_data.adaptation_cost * 100) 500
  let base_loss :=
    if econ_data.income_change < 0 then base_loss + |econ_data.income_change| * 50
    else base_loss
  let base_loss := hazards.foldl (fun acc hazard => acc + hazard_loss hazard) base_loss
  let base_loss :=
    if 10 < years then base_loss * (1 + ((years : ℚ) - 10) * 0.05)
    else base_loss
  let temp ← climate_num_attr climate "temperature"
  let base_loss := if temp > 30 then base_loss + (temp - 30) * 200 else base_loss
  let base_loss := base_loss * (econ_data.economic_vulnerability / 50)
  pure ⟨((round base_loss : ℤ) : ℚ), ((round (base_loss * 10) : ℤ) : ℚ),
    econ_data.adaptation_cost, 0.75⟩

/-- `PlannerAgent._generate_recommendations` (`"heat" in str(hazards).lower()`
holds exactly when some hazard string contains the pattern, since the
patterns used never straddle the `', '` separators of `str(list)`). -/
def generate_recommendations (hazards : List String) (overall_risk : ℚ)
    (years : ℕ) : List String :=
  let recs : List String :=
    if overall_risk > 75 then
      ["HIGH RISK: Strongly consider alternative locations with lower climate risk",
       "If staying, invest heavily in climate-resilient housing and infrastructure"]
    else if overall_risk > 50 then
      ["MODERATE-HIGH RISK: Prepare for significant climate adaptation needs",
       "Budget for increased insurance and disaster preparedness"]
    else if overall_risk > 25 then
      ["MODERATE RISK: Standard climate precautions recommended"]
    else
      ["LOW RISK: Location shows relatively stable climate outlook"]
  let recs := recs ++
    (if hazards.any (fun h => strContains h.toLower "heat") then
      ["Install high-efficiency cooling systems and consider heat-resilient building materials"]
     else [])
  let recs := recs ++
    (if hazards.any (fun h => strContains h.toLower "hurricane") ||
        hazards.any (fun h => strContains h.toLower "storm") then
      ["Ensure hurricane-rated construction and maintain comprehensive insurance"]
     else [])
  let recs := recs ++
    (if hazards.contains "Drought" || hazards.contains "Water scarcity" then
      ["Invest in water conservation systems and alternative water sources"]
     else [])
  let recs := recs ++
    (if hazards.contains "Flooding" || hazards.contains "Sea level rise" then
      ["Verify property elevation and flood zone status; consider relocation from high-risk zones"]
     else [])
  let recs := recs ++
    (if 20 < years then
      ["For long-term planning, consider generational climate migration patterns"]
     else [])
  let recs := recs ++
    (if 30 < years then
      ["At 30+ year horizons, climate uncertainty is high; maintain flexibility in plans"]
     else [])
  recs.take 7

/-- The planner stage output: the claims and recommendations of the
`planner_output` agent message (free text out of scope, see header). -/
structure PlannerOutput where
  claims : List AgentClaim
  recommendations : List String
deriving DecidableEq, Repr

/-- The dictionary returned by `PlannerAgent.analyze`: exactly the keys
`planner_output`, `risk_scores`, `hazards` and `economic_impact`. -/
structure PlannerResult where
  planner_output : PlannerOutput
  risk_scores : RiskScores
  hazards : List String
  economic_impact : EconomicImpact
deriving DecidableEq, Repr

/-- `PlannerAgent.analyze`: the dependency guard on
`state.meteorologist_output` / `state.economist_output` (a pydantic model
is truthy, `None` falsy), then insights extraction, hazards, risk scores,
economic losses and recommendations, in source order. `AgentState`
declares no `years_in_future` field, so `getattr(state, "years_in_future", 5)`
always yields 5. -/
def planner_analyze (state : AgentState) : Except PlanError PlannerResult :=
  match state.meteorologist_output, state.economist_output with
  | some met_output, some econ_output => do
    let years : ℕ := 5
    let met_data := extract_meteorologist_insights met_output
    let econ_data := extract_economist_insights econ_output
    let hazards ← identify_hazards state.climate_data state.location.lat
      state.location.lng years met_data
    let risk_scores ← calculate_risk_scores_of_state state.climate_data hazards
      met_data years state.location.lat state.location.lng
    let economic_impact ← estimate_economic_losses state.climate_data years
      hazards econ_data
    let recommendations := generate_recommendations hazards risk_scores.overall years
    let claims : List AgentClaim :=
      [⟨"overall_risk", risk_scores.overall, "0-100", 0.85⟩,
       ⟨"environmental_risk", risk_scores.environmental, "0-100", 0.88⟩,
       ⟨"economic_risk", risk_scores.economic, "0-100", 0.82⟩,
       ⟨"estimated_annual_losses", economic_impact.annual_loss_per_capita, "USD", 0.75⟩]
    pure ⟨⟨claims, recommendations⟩, risk_scores, hazards, economic_impact⟩
  | _, _ =>
    .error (.missingDependency "Meteorologist and Economist agents must complete before Planner")

/-! ## Concrete states (from `tests/test_planner_agent.py` and
`tests/test_meteorologist.py`) -/

/-- The state of `test_planner_generates_strategy_and_impact`
(`tests/test_planner_agent.py`): Kitui County, all upstream outputs
present, schema-valid `ClimateData`. -/
def kitui_state : AgentState :=
  { location := ⟨0.5, 37.6, "Kitui County"⟩
    radius := 80
    priorities := ⟨40, 35, 25⟩
    climate_data := some ⟨29.0, 120.0, -30.0, .high⟩
    meteorologist_output := some
      ⟨[⟨"temperature_avg", 29.0, "C", 0.9⟩,
        ⟨"precipitation_anomaly", -30.0, "%", 0.9⟩],
       ["Prepare for prolonged dry spell conditions across the growing season"]⟩
    agronomist_output := some
      ⟨[⟨"crop_yield_change", -20.0, "%", 0.8⟩,
        ⟨"water_stress_index", 0.6, "index", 0.75⟩,
        ⟨"soil_health_index", 0.35, "index", 0.7⟩],
       ["Switch 40% of maize to drought-tolerant sorghum",
        "Install water harvesting pits at field edges"]⟩
    economist_output := some
      ⟨[⟨"income_change", -12.0, "%", 0.75⟩,
        ⟨"adaptation_cost", 120000.0, "USD", 0.7⟩,
        ⟨"economic_resilience", 0.32, "index", 0.65⟩],
       ["Seek blended finance to offset high upfront irrigation costs"]⟩ }

/-- A state with meteorologist and economist outputs and a climate signal
present but the agronomist output absent (Machakos fixture shape from
`tests/test_meteorologist.py`). -/
def machakos_no_agronomist_state : AgentState :=
  { location := ⟨-1.2, 36.8, "Machakos"⟩
    radius := 60
    priorities := ⟨70, 50, 30⟩
    climate_data := some ⟨27.5, 160.0, -22.0, .medium⟩
    meteorologist_output := some
      ⟨[⟨"temperature_avg", 27.5, "C", 0.95⟩,
        ⟨"precipitation_anomaly", -22.0, "%", 0.72⟩], []⟩
    agronomist_output := none
    economist_output := some
      ⟨[⟨"adaptation_cost", 15.0, "k USD", 0.72⟩,
        ⟨"economic_vulnerability", 40.0, "0-100", 0.7⟩], []⟩ }

/-! ## Rounding lemmas -/

theorem roundTo_mono (n : ℕ) {x y : ℚ} (h : x ≤ y) : roundTo n x ≤ roundTo n y := by
  unfold roundTo
  have hpow : (0 : ℚ) < 10 ^ n := by positivity
  have hr : round (x * 10 ^ n) ≤ round (y * 10 ^ n) := by
    rw [round_eq, round_eq]
    exact Int.floor_le_floor (by nlinarith)
  have hc : ((round (x * 10 ^ n) : ℤ) : ℚ) ≤ ((round (y * 10 ^ n) : ℤ) : ℚ) := by
    exact_mod_cast hr
  exact div_le_div_of_nonneg_right hc hpow.le

theorem roundTo_intCast (n : ℕ) (k : ℤ) : roundTo n (k : ℚ) = k := by
  unfold roundTo
  rw [show ((k : ℚ) * 10 ^ n) = ((k * 10 ^ n : ℤ) : ℚ) by push_cast; ring, round_intCast]
  have hpow : ((10 : ℚ) ^ n) ≠ 0 := by positivity
  push_cast
  field_simp

theorem roundTo_nonneg (n : ℕ) {x : ℚ} (hx : 0 ≤ x) : 0 ≤ roundTo n x := by
  have h := roundTo_mono n hx
  have h0 : roundTo n (0 : ℚ) = 0 := by
    have := roundTo_intCast n 0
    simpa using this
  linarith

theorem roundTo_le_hundred (n : ℕ) {x : ℚ} (hx : x ≤ 100) : roundTo n x ≤ 100 := by
  have h := roundTo_mono n hx
  have h0 : roundTo n (100 : ℚ) = 100 := by
    have := roundTo_intCast n 100
    simpa using this
  linarith

theorem sub_half_le_round (x : ℚ) : x - 1 / 2 ≤ ((round x : ℤ) : ℚ) := by
  have h := abs_sub_round x
  rw [abs_le] at h
  linarith [h.2]

/-! ## C6 — Agronomist Scenario A -/

/-- C6: for anomaly -35, temperature 28 and risk "high" the agronomist
computes yield change -22.5 (28 lies in neither temperature-adjustment
band), water stress 0.55, and soil health 0.12 after rounding to 2
decimals. -/
theorem agronomist_scenario_a :
    calculate_yield_impact (-35) 28 = -22.5 ∧
    calculate_water_stress (-35) = 0.55 ∧
    calculate_soil_health (-35) (calculate_water_stress (-35)) .high = 0.12 := by
  refine ⟨?_, ?_, ?_⟩ <;>
    norm_num [calculate_yield_impact, calculate_water_stress, calculate_soil_health,
      soil_risk_penalty, roundTo, round_eq, min_def, max_def, Int.floor_eq_iff]

/-! ## C8 — Water-stress monotonicity -/

theorem calculate_water_stress_of_neg {a : ℚ} (ha : a < 0) :
    calculate_water_stress a = roundTo 2 (min 1.0 (0.2 + (-a / 100))) := by
  simp [calculate_water_stress, ha]

/-- C8: for anomalies `a1 < a2 < 0` the water-stress index at `a1` is at
least the index at `a2` (stress non-decreasing as the anomaly becomes more
negative), the index never exceeds 1.0, and it attains 1.0 (at anomaly
-80, for instance), i.e. it saturates at 1.0. -/
theorem water_stress_monotone_saturating (a1 a2 : ℚ) (h12 : a1 < a2) (h2 : a2 < 0) :
    calculate_water_stress a2 ≤ calculate_water_stress a1 ∧
    calculate_water_stress a1 ≤ 1 ∧
    calculate_water_stress (-80) = 1 := by
  have h1 : a1 < 0 := h12.trans h2
  have hone : roundTo 2 (1 : ℚ) = 1 := by
    have := roundTo_intCast 2 1
    simpa using this
  refine ⟨?_, ?_, ?_⟩
  · rw [calculate_water_stress_of_neg h1, calculate_water_stress_of_neg h2]
    exact roundTo_mono 2 (min_le_min le_rfl (by linarith))
  · rw [calculate_water_stress_of_neg h1]
    rw [show (1.0 : ℚ) = 1 by norm_num]
    calc roundTo 2 (min 1 (0.2 + (-a1 / 100))) ≤ roundTo 2 1 :=
          roundTo_mono 2 (min_le_left _ _)
      _ = 1 := hone
  · rw [calculate_water_stress_of_neg (by norm_num : (-80 : ℚ) < 0)]
    rw [show min 1.0 (0.2 + (-(-80 : ℚ) / 100)) = 1 by norm_num [min_def]]
    exact hone

/-- Witness for C8 at the concrete pair (-90, -10). -/
theorem water_stress_monotone_saturating_witness :
    calculate_water_stress (-10) ≤ calculate_water_stress (-90) ∧
    calculate_water_stress (-90) ≤ 1 ∧
    calculate_water_stress (-80) = 1 :=
  water_stress_monotone_saturating (-90) (-10) (by norm_num) (by norm_num)

/-! ## C7 — Economist adaptation cost -/

/-- C7 counterexample: at radius 80 and risk "high" the code's adaptation
cost is the flat 35000 USD household figure (for the pipeline's fixed
5-year horizon and an in-band temperature such as 28), while the spec's
area-based formula exceeds 100000 USD there, so the two differ; the code's
cost does not take a radius at all. -/
theorem adaptation_cost_differs_from_spec :
    estimate_adaptation_cost "high" 28 5 = 35000 ∧
    100000 < spec_adaptation_cost 80 "high" := by
  constructor
  · simp only [estimate_adaptation_cost, String.reduceEq]
    norm_num [round_eq, Int.floor_eq_iff]
  · simp only [spec_adaptation_cost, String.reduceEq, if_true, if_false]
    have hpi : (3 : ℚ) ≤ piQ := by norm_num [piQ]
    have key : ∀ y : ℚ, (18532800 : ℚ) ≤ y → (100000 : ℚ) < ((round y : ℤ) : ℚ) * 100 := by
      intro y hy
      have h2 := sub_half_le_round y
      linarith
    exact key _ (by nlinarith)

/-- C7 amended: the adaptation cost is independent of any radius; with an
in-band temperature (10 ≤ temp ≤ 30) and a horizon of at most 10 years it
is exactly the base household cost per risk level: low 5000, medium 15000,
high 35000, extreme 60000 USD, and 15000 USD for an unrecognized level. -/
theorem adaptation_cost_base_values (temp : ℚ) (years : ℕ)
    (h1 : 10 ≤ temp) (h2 : temp ≤ 30) (hy : years ≤ 10) :
    estimate_adaptation_cost "low" temp years = 5000 ∧
    estimate_adaptation_cost "medium" temp years = 15000 ∧
    estimate_adaptation_cost "high" temp years = 35000 ∧
    estimate_adaptation_cost "extreme" temp years = 60000 ∧
    estimate_adaptation_cost "drizzle" temp years = 15000 := by
  have ht : ¬(temp > 30) := not_lt.mpr h2
  have ht2 : ¬(temp < 10) := not_lt.mpr h1
  have hy2 : ¬(10 < years) := not_lt.mpr hy
  refine ⟨?_, ?_, ?_, ?_, ?_⟩ <;>
    · simp only [estimate_adaptation_cost, String.reduceEq, if_neg ht, if_neg ht2,
        if_neg hy2, if_true, if_false]
      norm_num [round_eq, Int.floor_eq_iff]

/-- Witness for the amended C7 at temperature 20 and a 5-year horizon. -/
theorem adaptation_cost_base_values_witness :
    estimate_adaptation_cost "low" 20 5 = 5000 ∧
    estimate_adaptation_cost "medium" 20 5 = 15000 ∧
    estimate_adaptation_cost "high" 20 5 = 35000 ∧
    estimate_adaptation_cost "extreme" 20 5 = 60000 ∧
    estimate_adaptation_cost "drizzle" 20 5 = 15000 :=
  adaptation_cost_base_values 20 5 (by norm_num) (by norm_num) (by norm_num)

/-! ## C4 — Meteorologist failure policy -/

/-- C4 counterexample: when the upstream fetch fails,
`_fetch_climate_data` propagates the error — it does not return the spec's
fixed fallback signal (temperature 28.0, precipitation 180.0, anomaly
-20.0, risk "medium"). -/
theorem fetch_failure_not_fallback :
    fetch_climate_data 0 0 none = .error .httpError ∧
    isOkE (fetch_climate_data 0 0 none) = false := ⟨rfl, rfl⟩

/-- C4 amended: if the upstream data source is unavailable the HTTP error
propagates out of `_fetch_climate_data` (`raise_for_status`), and an
empty (incomplete) series raises a `ZeroDivisionError`; no fallback
`ClimateSignal` exists in the code and the run does not continue. -/
theorem fetch_climate_data_error_paths (lat lon : ℚ) :
    fetch_climate_data lat lon none = .error .httpError ∧
    fetch_climate_data lat lon (some ([], [])) = .error .zeroDivision :=
  ⟨rfl, rfl⟩

/-! ## C5 — Meteorologist schema mismatch -/

theorem validateClimateData_wrong_fields (a b : ℚ) (r : String) :
    validateClimateData
      [("temperature", .num a), ("precipitation", .num b),
       ("extreme_weather_risk", .str r)] = .error .validationError := rfl

/-- C5: on every successful fetch (non-empty series) `_fetch_climate_data`
raises a pydantic validation error instead of returning a climate signal:
its `ClimateData(temperature=…, precipitation=…, …)` call supplies none of
the schema's required fields `temperature_avg`, `precipitation_sum`,
`precipitation_anomaly`; moreover `_assess_weather_risk` can return
"extreme" (e.g. for temp 31, precip 300 in the hurricane zone at
lat 25, lon -90), which lies outside the schema's `Literal` set
{low, medium, high}. -/
theorem fetch_success_raises_validation (lat lon : ℚ) (temps precips : List ℚ)
    (h : temps ≠ []) :
    fetch_climate_data lat lon (some (temps, precips)) = .error .validationError ∧
    assess_weather_risk 31 300 25 (-90) = "extreme" ∧
    RiskLevel.ofStr "extreme" = none := by
  refine ⟨?_, rfl, rfl⟩
  have hl : ¬(temps.length = 0) := by simpa using h
  simp only [fetch_climate_data, if_neg hl]
  exact validateClimateData_wrong_fields _ _ _

/-- Witness for C5 on the one-day series [28] / [1]. -/
theorem fetch_success_raises_validation_witness :
    fetch_climate_data 0 0 (some ([28], [1])) = .error .validationError ∧
    assess_weather_risk 31 300 25 (-90) = "extreme" ∧
    RiskLevel.ofStr "extreme" = none :=
  fetch_success_raises_validation 0 0 [28] [1] (by simp)

/-! ## C9 — Request validation -/

/-- C9: a request whose priorities lie outside [0,100], whose latitude or
longitude lie outside their ranges, or whose radius lies outside [10,200]
fails `AnalyzeRequest` validation, so the `/analyze` endpoint returns a
validation error and the agent pipeline — whatever it computes — never
runs, producing no stage output. -/
theorem analyze_rejects_invalid (α : Type) (run_pipeline : AnalyzeRequest → α)
    (req : AnalyzeRequest)
    (h : validPriorities req.priorities = false ∨
      validLocation req.location = false ∨ validRadius req.radius = false) :
    analyze_endpoint run_pipeline req = .error "ValidationError" := by
  unfold analyze_endpoint parseAnalyzeRequest
  rcases h with h | h | h <;> simp [h, Except.map]

/-- Witness for C9: latitude 100 is rejected. -/
theorem analyze_rejects_invalid_witness :
    validLocation ⟨100, 0, "nowhere"⟩ = false ∧
    analyze_endpoint (fun _ => (0 : ℕ))
      ⟨⟨100, 0, "nowhere"⟩, 50, ⟨50, 50, 50⟩, none⟩ = .error "ValidationError" :=
  ⟨by decide, analyze_rejects_invalid ℕ _ _ (Or.inr (Or.inl (by decide)))⟩

/-! ## C1 — Planner produces no Strategy -/

/-- C1 (code bug evaluated at the failing input): on the state of the
repository's own planner test — all upstream outputs present, schema-valid
climate data — `PlannerAgent.analyze` raises `AttributeError` at its
`climate.temperature` read (the schema field is `temperature_avg`), so its
result contains no `Strategy` and no crop mix at all; even its return
statement carries only the keys `planner_output`, `risk_scores`, `hazards`
and `economic_impact` (the fields of `PlannerResult`). -/
theorem planner_no_strategy_on_test_state :
    planner_analyze kitui_state = .error (.attributeError "ClimateData" "temperature") := rfl

/-! ## C2 — Planner produces no impact deltas -/

/-- C2 (code bug): for every input state the planner stage raises before
returning — the dependency guard fires, or the `climate.temperature` read
raises `AttributeError` (on `None` or on the schema-valid `ClimateData`,
which declares no `temperature` field) — so no `ImpactDelta` components
are ever produced, clamped or otherwise. -/
theorem planner_never_returns (state : AgentState) :
    isOkE (planner_analyze state) = false := by
  rcases hm : state.meteorologist_output with _ | met
  · simp [planner_analyze, hm, isOkE]
  rcases he : state.economist_output with _ | econ
  · simp [planner_analyze, hm, he, isOkE]
  rcases hc : state.climate_data with _ | cd <;>
    simp [planner_analyze, hm, he, hc, identify_hazards, climate_num_attr,
      ClimateData.getAttr, isOkE, Bind.bind, Except.bind]

/-! ## C3 — Planner dependency guard -/

/-- C3 counterexample: on a state whose agronomist output is absent (with
meteorologist output, economist output and climate signal all present) the
planner raises no dependency error — the guard checks only the
meteorologist and economist outputs, and the run instead dies at the
`climate.temperature` attribute read. -/
theorem planner_ignores_missing_agronomist :
    machakos_no_agronomist_state.agronomist_output = none ∧
    isMissingDependency (planner_analyze machakos_no_agronomist_state) = false ∧
    planner_analyze machakos_no_agronomist_state =
      .error (.attributeError "ClimateData" "temperature") :=
  ⟨rfl, rfl, rfl⟩

/-- C3 amended: the planner's dependency error fires exactly when the
meteorologist output or the economist output is absent; absence of the
agronomist output or of the climate signal alone never raises the
dependency error. -/
theorem planner_dependency_guard (state : AgentState) :
    isMissingDependency (planner_analyze state) =
      (state.meteorologist_output.isNone || state.economist_output.isNone) := by
  rcases hm : state.meteorologist_output with _ | met
  · simp [planner_analyze, hm, isMissingDependency]
  rcases he : state.economist_output with _ | econ
  · simp [planner_analyze, hm, he, isMissingDependency]
  rcases hc : state.climate_data with _ | cd <;>
    simp [planner_analyze, hm, he, hc, identify_hazards, climate_num_attr,
      ClimateData.getAttr, isMissingDependency, Bind.bind, Except.bind]

/-! ## C10 — Risk-score bounds -/

theorem weather_risk_points_nonneg (risk : String) : 0 ≤ weather_risk_points risk := by
  unfold weather_risk_points
  split <;> norm_num
  split <;> norm_num
  split <;> norm_num
  split <;> norm_num

theorem time_multiplier_pos (years : ℕ) : 0 < time_multiplier years := by
  unfold time_multiplier
  split
  · positivity
  · rename_i hy
    split
    · have : (10 : ℚ) < (years : ℚ) := by exact_mod_cast Nat.lt_of_not_le hy
      nlinarith
    · rename_i hy30
      have : (30 : ℚ) < (years : ℚ) := by exact_mod_cast Nat.lt_of_not_le hy30
      nlinarith

theorem env_risk_value_bounds (temperature precipitation : ℚ) (risk : String)
    (hazard_count : ℕ) (met_data : MetInsights) (years : ℕ) :
    0 ≤ env_risk_value temperature precipitation risk hazard_count met_data years ∧
    env_risk_value temperature precipitation risk hazard_count met_data years ≤ 100 := by
  unfold env_risk_value
  constructor
  · have h1 : (0 : ℚ) ≤ min (|temperature + met_data.temperature_anomaly * (years : ℚ) / 10 - 25| * 3) 35 :=
      le_min (by positivity) (by norm_num)
    have h2 := weather_risk_points_nonneg risk
    have h3 : (0 : ℚ) ≤
        (if precipitation + met_data.precipitation_trend * (years : ℚ) / 5 < 400 then (20 : ℚ)
         else if precipitation + met_data.precipitation_trend * (years : ℚ) / 5 > 1800 then 15
         else 0) := by
      split
      · norm_num
      · split <;> norm_num
    have h4 : (0 : ℚ) ≤ (hazard_count : ℚ) * 2 := by positivity
    have h5 := time_multiplier_pos years
    exact le_min (by nlinarith) (by norm_num)
  · exact min_le_right _ _

theorem econ_risk_value_bounds (env_risk : ℚ) (hazards : List String)
    (lat lng : ℚ) (years : ℕ) (henv : 0 ≤ env_risk) :
    0 ≤ econ_risk_value env_risk hazards lat lng years ∧
    econ_risk_value env_risk hazards lat lng years ≤ 100 := by
  unfold econ_risk_value
  constructor
  · have h1 : (0 : ℚ) ≤ env_risk * 0.7 := by positivity
    have h2 : (0 : ℚ) ≤
        (((hazards.filter (fun h => severe_hazards.contains h)).length : ℚ)) * 8 := by
      positivity
    have h3 : (0 : ℚ) ≤ (if is_likely_coastal lat lng then (15 : ℚ) else 0) := by
      split <;> norm_num
    have h4 : (0 : ℚ) ≤ (if 20 < years then ((years : ℚ) - 20) * 0.5 else 0) := by
      split
      · rename_i hy
        have : (20 : ℚ) < (years : ℚ) := by exact_mod_cast hy
        nlinarith
      · norm_num
    exact le_min (by linarith) (by norm_num)
  · exact min_le_right _ _

/-- C10 counterexample: invoked on an actual state's climate data (the
planner test fixture's values), `_calculate_risk_scores` raises
`AttributeError` at its `climate.temperature` read (the schema field is
`temperature_avg`) and returns no scores. -/
theorem risk_scores_unreachable_on_state :
    calculate_risk_scores_of_state (some ⟨29.0, 120.0, -30.0, .high⟩) []
      ⟨-30.0, 0⟩ 5 0.5 37.6 = .error (.attributeError "ClimateData" "temperature") := rfl

/-- C10 amended: for every combination of attribute values, hazards,
meteorologist insights, horizon and coordinates, `_calculate_risk_scores` returns
environmental, economic and overall scores each within [0, 100], with the
overall score equal to the weighted average `env*0.6 + econ*0.4` of the
two unrounded accumulators, rounded to one decimal. -/
theorem risk_scores_bounds (temperature precipitation : ℚ) (risk : String)
    (hazards : List String) (met_data : MetInsights) (years : ℕ) (lat lng : ℚ) :
    (0 ≤ (calculate_risk_scores temperature precipitation risk hazards met_data years lat lng).environmental ∧
      (calculate_risk_scores temperature precipitation risk hazards met_data years lat lng).environmental ≤ 100) ∧
    (0 ≤ (calculate_risk_scores temperature precipitation risk hazards met_data years lat lng).economic ∧
      (calculate_risk_scores temperature precipitation risk hazards met_data years lat lng).economic ≤ 100) ∧
    (0 ≤ (calculate_risk_scores temperature precipitation risk hazards met_data years lat lng).overall ∧
      (calculate_risk_scores temperature precipitation risk hazards met_data years lat lng).overall ≤ 100) ∧
    (calculate_risk_scores temperature precipitation risk hazards met_data years lat lng).overall =
      roundTo 1
        (env_risk_value temperature precipitation risk hazards.length met_data years * 0.6 +
          econ_risk_value
            (env_risk_value temperature precipitation risk hazards.length met_data years)
            hazards lat lng years * 0.4) := by
  have hE := env_risk_value_bounds temperature precipitation risk hazards.length met_data years
  have hC := econ_risk_value_bounds
    (env_risk_value temperature precipitation risk hazards.length met_data years)
    hazards lat lng years hE.1
  unfold calculate_risk_scores
  refine ⟨⟨roundTo_nonneg 1 hE.1, roundTo_le_hundred 1 hE.2⟩,
    ⟨roundTo_nonneg 1 hC.1, roundTo_le_hundred 1 hC.2⟩,
    ⟨roundTo_nonneg 1 (by nlinarith [hE.1, hC.1]), roundTo_le_hundred 1 (by nlinarith [hE.2, hC.2])⟩,
    rfl⟩

end SCDS

